import Mathlib

set_option linter.unusedVariables false

/-!
Verification development for the DebateAgent repository.

The definitions below are a shallow embedding of the Python sources under
`serve/`: `DatabaseService.py` (access-token store over DynamoDB),
`debate_api.py` (REST boundary), `ConfigService.py`, `agent_service.py`
(the decision/search/summarize/generate workflow) and the role agents
(`affirmative_agent.py`, `negative_agent.py`, `referee_agent.py`).
Machine-level details that are external to the program (the DynamoDB wire
protocol, the LLM and DuckDuckGo HTTP calls) are modelled as explicit state
or oracle parameters; everything the program itself computes is translated
directly from the source.
-/

namespace PyJson

/-- Model of the Python values produced by `json.loads`: JSON null, booleans,
numbers (kept as their raw literal text, since the program never does
arithmetic on them), strings, arrays and objects.  Object fields are kept in
source order; lookup takes the last occurrence of a key, matching the
behaviour of `json.loads` building a `dict`. -/
inductive Json where
  | null
  | bool (b : Bool)
  | num (raw : String)
  | str (s : String)
  | arr (elems : List Json)
  | obj (fields : List (String × Json))

/-- Lookup of a key in a parsed JSON object, last occurrence winning
(duplicate keys in a JSON text overwrite earlier ones in Python's `dict`). -/
def objGet (fields : List (String × Json)) (key : String) : Option Json :=
  (fields.reverse.find? (fun kv => kv.1 = key)).map (fun kv => kv.2)

/-- Python truthiness (`if x:`) of a decoded JSON value: `None`, `False`,
numeric zero, empty string/list/dict are falsy, everything else truthy.
A JSON number denotes zero exactly when its literal contains no nonzero
digit. -/
def pyTruthy : Json → Bool
  | .null => false
  | .bool b => b
  | .num raw => raw.data.any (fun c => '1' ≤ c ∧ c ≤ '9')
  | .str s => s != ""
  | .arr elems => !elems.isEmpty
  | .obj fields => !fields.isEmpty

/-- Whitespace accepted between tokens by Python's `json` module. -/
def jsonWs (c : Char) : Bool :=
  c = ' ' ∨ c = '\t' ∨ c = '\n' ∨ c = '\r'

/-- Skip inter-token whitespace. -/
def skipWs : List Char → List Char
  | [] => []
  | c :: rest => if jsonWs c then skipWs rest else c :: rest

/-- Value of one hexadecimal digit, for `\uXXXX` escapes. -/
def hexVal (c : Char) : Option Nat :=
  if '0' ≤ c ∧ c ≤ '9' then some (c.toNat - '0'.toNat)
  else if 'a' ≤ c ∧ c ≤ 'f' then some (c.toNat - 'a'.toNat + 10)
  else if 'A' ≤ c ∧ c ≤ 'F' then some (c.toNat - 'A'.toNat + 10)
  else none

/-- Scan the body of a JSON string literal (the opening quote already
consumed), handling the standard escapes. -/
def scanString (fuel : Nat) (cs : List Char) (acc : List Char) :
    Option (String × List Char) :=
  match fuel, cs with
  | 0, _ => none
  | _, [] => none
  | fuel + 1, c :: rest =>
    if c = '"' then some (String.mk acc.reverse, rest)
    else if c = '\\' then
      match rest with
      | [] => none
      | e :: rest2 =>
        if e = '"' then scanString fuel rest2 ('"' :: acc)
        else if e = '\\' then scanString fuel rest2 ('\\' :: acc)
        else if e = '/' then scanString fuel rest2 ('/' :: acc)
        else if e = 'b' then scanString fuel rest2 ('\x08' :: acc)
        else if e = 'f' then scanString fuel rest2 ('\x0c' :: acc)
        else if e = 'n' then scanString fuel rest2 ('\n' :: acc)
        else if e = 'r' then scanString fuel rest2 ('\r' :: acc)
        else if e = 't' then scanString fuel rest2 ('\t' :: acc)
        else if e = 'u' then
          match rest2 with
          | h1 :: h2 :: h3 :: h4 :: rest3 =>
            match hexVal h1, hexVal h2, hexVal h3, hexVal h4 with
            | some a, some b, some c3, some d =>
              let n := ((a * 16 + b) * 16 + c3) * 16 + d
              scanString fuel rest3 (Char.ofNat n :: acc)
            | _, _, _, _ => none
          | _ => none
        else none
    else scanString fuel rest (c :: acc)

/-- Scan a run of decimal digits, returning them and the rest. -/
def scanDigits : List Char → List Char × List Char
  | [] => ([], [])
  | c :: rest =>
    if '0' ≤ c ∧ c ≤ '9' then
      let (ds, r) := scanDigits rest
      (c :: ds, r)
    else ([], c :: rest)

/-- Scan the integer part of a JSON number: `0`, or a nonzero digit followed
by digits (leading zeros are rejected, as in RFC 8259 / Python `json`). -/
def scanIntPart : List Char → Option (List Char × List Char)
  | [] => none
  | c :: rest =>
    if c = '0' then some ([c], rest)
    else if '1' ≤ c ∧ c ≤ '9' then
      let (ds, r) := scanDigits rest
      some (c :: ds, r)
    else none

/-- Scan a JSON number literal, returning its raw text. -/
def scanNumber (cs : List Char) : Option (String × List Char) :=
  let (sign, cs1) :=
    match cs with
    | '-' :: rest => (['-'], rest)
    | _ => (([] : List Char), cs)
  match scanIntPart cs1 with
  | none => none
  | some (intDs, cs2) =>
    let fracScan : Option (List Char × List Char) :=
      match cs2 with
      | '.' :: rest =>
        match scanDigits rest with
        | ([], _) => none
        | (ds, r) => some ('.' :: ds, r)
      | _ => some ([], cs2)
    match fracScan with
    | none => none
    | some (fracDs, cs3) =>
      let (expDs, cs4) :=
        match cs3 with
        | e :: rest =>
          if e = 'e' ∨ e = 'E' then
            let (sgn, rest2) :=
              match rest with
              | s :: r2 => if s = '+' ∨ s = '-' then ([s], r2) else (([] : List Char), rest)
              | [] => (([] : List Char), rest)
            match scanDigits rest2 with
            | ([], _) => (([] : List Char), cs3)
            | (ds, r) => (e :: (sgn ++ ds), r)
          else (([] : List Char), cs3)
        | [] => (([] : List Char), cs3)
      some (String.mk (sign ++ intDs ++ fracDs ++ expDs), cs4)

mutual

/-- Recursive-descent scan of one JSON value, embedding Python `json.loads`
(restricted to the standard grammar; the nonstandard `NaN`/`Infinity`
extensions never occur in this program's data). -/
def scanValue (fuel : Nat) (cs : List Char) : Option (Json × List Char) :=
  match fuel with
  | 0 => none
  | fuel + 1 =>
    match skipWs cs with
    | [] => none
    | c :: rest =>
      if c = '"' then
        (scanString (rest.length + 1) rest []).map (fun p => (Json.str p.1, p.2))
      else if c = '{' then
        match skipWs rest with
        | '}' :: rest2 => some (Json.obj [], rest2)
        | other => scanMembers fuel other []
      else if c = '[' then
        match skipWs rest with
        | ']' :: rest2 => some (Json.arr [], rest2)
        | other => scanElems fuel other []
      else if c = 't' then
        match rest with
        | 'r' :: 'u' :: 'e' :: rest2 => some (Json.bool true, rest2)
        | _ => none
      else if c = 'f' then
        match rest with
        | 'a' :: 'l' :: 's' :: 'e' :: rest2 => some (Json.bool false, rest2)
        | _ => none
      else if c = 'n' then
        match rest with
        | 'u' :: 'l' :: 'l' :: rest2 => some (Json.null, rest2)
        | _ => none
      else
        (scanNumber (c :: rest)).map (fun p => (Json.num p.1, p.2))

/-- Scan the members of a JSON object after `{` (first member pending). -/
def scanMembers (fuel : Nat) (cs : List Char) (acc : List (String × Json)) :
    Option (Json × List Char) :=
  match fuel with
  | 0 => none
  | fuel + 1 =>
    match skipWs cs with
    | '"' :: rest =>
      match scanString (rest.length + 1) rest [] with
      | none => none
      | some (key, rest2) =>
        match skipWs rest2 with
        | ':' :: rest3 =>
          match scanValue fuel rest3 with
          | none => none
          | some (v, rest4) =>
            match skipWs rest4 with
            | ',' :: rest5 => scanMembers fuel rest5 ((key, v) :: acc)
            | '}' :: rest5 => some (Json.obj ((key, v) :: acc).reverse, rest5)
            | _ => none
        | _ => none
    | _ => none

/-- Scan the elements of a JSON array after `[` (first element pending). -/
def scanElems (fuel : Nat) (cs : List Char) (acc : List Json) :
    Option (Json × List Char) :=
  match fuel with
  | 0 => none
  | fuel + 1 =>
    match scanValue fuel cs with
    | none => none
    | some (v, rest) =>
      match skipWs rest with
      | ',' :: rest2 => scanElems fuel rest2 (v :: acc)
      | ']' :: rest2 => some (Json.arr (v :: acc).reverse, rest2)
      | _ => none

end

/-- Embedding of `json.loads`: scan one value and require only whitespace to
follow. -/
def jsonLoads (s : String) : Option Json :=
  match scanValue (s.length + 1) s.data with
  | none => none
  | some (v, rest) => if skipWs rest = [] then some v else none

end PyJson

namespace DatabaseService

/-- Token status, the `STATUS` attribute of a stored record.  The domain
uses exactly the two values written by `TokenService`/`DatabaseService`. -/
inductive Status where
  | AVAILABLE
  | USED
deriving Repr, DecidableEq

/-- One DynamoDB item of the `DEBATE_ACCESS_CONTROL` table, restricted to a
fixed `TOKEN_ID`.  `STATUS` is the sort key, so it is present on every stored
item (`put_item` without it fails).  `REQUEST_COUNT` and `TTL` are read back
with `dict.get`, hence optional; a `TTL` that is present but not parseable as
an integer behaves like an absent one in `get_token_data` (the `ValueError`
branch just logs), so both are modelled as `none`. -/
structure TokenItem where
  status : Status
  requestCount : Option Int
  ttl : Option Int
  paymentId : String
  email : String
  createdAt : Int
deriving Repr, DecidableEq

/-- The slice of the table belonging to one `TOKEN_ID`: at most one item per
sort-key value (`AVAILABLE` / `USED`). -/
structure TokenStore where
  avail : Option TokenItem
  used : Option TokenItem
deriving Repr, DecidableEq

/-- Result of `table.query(KeyConditionExpression=Key('TOKEN_ID').eq(...))`:
the token's items in sort-key order (`'AVAILABLE' < 'USED'` as strings). -/
def queryItems (st : TokenStore) : List TokenItem :=
  st.avail.toList ++ st.used.toList

/-- Embeds `table.put_item(Item=item)`: the item replaces whatever is stored
under its own `(TOKEN_ID, STATUS)` key. -/
def put_item (st : TokenStore) (item : TokenItem) : TokenStore :=
  match item.status with
  | .AVAILABLE => { st with avail := some item }
  | .USED => { st with used := some item }

/-- Embeds `table.delete_item(Key={'TOKEN_ID': ..., 'STATUS': s})`. -/
def delete_item (st : TokenStore) (s : Status) : TokenStore :=
  match s with
  | .AVAILABLE => { st with avail := none }
  | .USED => { st with used := none }

/-- The expiry test of `get_token_data`: `int(ttl) < int(time.time())` when a
`TTL` attribute is present, no check otherwise. -/
def ttlExpired (ttl : Option Int) (now : Int) : Bool :=
  match ttl with
  | some t => t < now
  | none => false

/-- Embeds `DatabaseService.validate_token`: a pure existence check — it
queries by `TOKEN_ID` and returns whether any item exists, with no expiry or
`STATUS` filtering (the backing table is taken to be reachable; an
unreachable table returns `False` in the source). -/
def validate_token (st : TokenStore) : Bool :=
  decide ((queryItems st).length > 0)

/-- Embeds `DatabaseService.get_token_data` at time `now`: query by
`TOKEN_ID`, take the first item, report absent if the item is expired or has
`STATUS == 'USED'`.  The method performs no write, which the state-passing
form makes explicit by returning the store unchanged. -/
def get_token_data (now : Int) (st : TokenStore) :
    Option TokenItem × TokenStore :=
  match queryItems st with
  | [] => (none, st)
  | item :: _ =>
    if ttlExpired item.ttl now then (none, st)
    else if item.status = Status.USED then (none, st)
    else (some item, st)

/-- Embeds `DatabaseService.create_token` (an upsert via `put_item`; returns
`True` on success, the table being reachable). -/
def create_token (st : TokenStore) (item : TokenItem) : Bool × TokenStore :=
  (true, put_item st item)

/-- Embeds `DatabaseService.mark_token_as_used`: re-reads the record through
`get_token_data`, rewrites its status to `USED`, deleting the old item first
because `STATUS` is the sort key. -/
def mark_token_as_used (now : Int) (st : TokenStore) : Bool × TokenStore :=
  match (get_token_data now st).1 with
  | none => (false, st)
  | some tokenData =>
    let oldStatus := tokenData.status
    if oldStatus = Status.USED then (true, st)
    else
      let tokenData' := { tokenData with status := Status.USED }
      let st' := delete_item st oldStatus
      create_token st' tokenData'

/-- Embeds `DatabaseService.decrement_request_count` at time `now`: read the
live record; absent ⇒ `None`; `count <= 0` ⇒ mark used and report `0`;
otherwise write back `count - 1`, flipping `STATUS` to `USED` (delete old
item + recreate, `STATUS` being the sort key) when the new count reaches 0,
and report the new count. -/
def decrement_request_count (now : Int) (st : TokenStore) :
    Option Int × TokenStore :=
  match (get_token_data now st).1 with
  | none => (none, st)
  | some tokenData =>
    let oldStatus := tokenData.status
    let count := tokenData.requestCount.getD 0
    if count ≤ 0 then
      let r := mark_token_as_used now st
      (some 0, r.2)
    else
      let newCount := count - 1
      let td1 := { tokenData with requestCount := some newCount }
      let td2 := if newCount ≤ 0 then { td1 with status := Status.USED } else td1
      let st1 := if oldStatus ≠ td2.status then delete_item st oldStatus else st
      let r := create_token st1 td2
      if r.1 then (some newCount, r.2) else (none, r.2)

/-- Iterated decrement: `decIter now k st` performs `k` successive calls of
`decrement_request_count`, keeping only the evolving store. -/
def decIter (now : Int) : Nat → TokenStore → TokenStore
  | 0, st => st
  | k + 1, st => decIter now k (decrement_request_count now st).2

/-- The `REQUEST_COUNT` of the token's first stored item, if any. -/
def storedCount (st : TokenStore) : Option Int :=
  (queryItems st).head?.bind (fun item => item.requestCount)

/-- The `STATUS` of the token's first stored item, if any. -/
def storedStatus (st : TokenStore) : Option Status :=
  (queryItems st).head?.map (fun item => item.status)

/-- A freshly issued token record as `TokenService.generate_available_token`
writes it: a single item with `STATUS = 'AVAILABLE'` and the given quota. -/
def singleTokenStore (n : Int) (ttl : Option Int) (pid em : String)
    (ca : Int) : TokenStore :=
  { avail := some { status := .AVAILABLE, requestCount := some n, ttl := ttl,
                    paymentId := pid, email := em, createdAt := ca },
    used := none }

end DatabaseService

namespace PyStr

/-- Whitespace for Python's `str.strip`: the ASCII whitespace characters
(space, tab, newline, carriage return, vertical tab, form feed). -/
def pyWs (c : Char) : Bool :=
  c = ' ' ∨ c = '\t' ∨ c = '\n' ∨ c = '\r' ∨ c = '\x0b' ∨ c = '\x0c'

/-- Python `s.strip()`. -/
def pyStrip (s : String) : String :=
  String.mk (((s.data.dropWhile pyWs).reverse.dropWhile pyWs).reverse)

/-- Does the second character list start with the first? -/
def headMatches : List Char → List Char → Bool
  | [], _ => true
  | _ :: _, [] => false
  | a :: as, b :: bs => a = b && headMatches as bs

/-- Python `s.startswith(pat)`. -/
def pyStartsWith (s pat : String) : Bool :=
  headMatches pat.data s.data

/-- Python `s.endswith(pat)`. -/
def pyEndsWith (s pat : String) : Bool :=
  headMatches pat.data.reverse s.data.reverse

/-- Python slicing `s[n:]`. -/
def pyDrop (s : String) (n : Nat) : String :=
  String.mk (s.data.drop n)

/-- Python slicing `s[:-n]` (used only with `n ≤ len(s)`). -/
def pyDropRight (s : String) (n : Nat) : String :=
  String.mk (s.data.take (s.data.length - n))

/-- Occurrence scan behind Python's `needle in hay`. -/
def occursIn (needle : List Char) : List Char → Bool
  | [] => decide (needle = [])
  | c :: rest => headMatches needle (c :: rest) || occursIn needle rest

/-- Python `pat in s` (substring containment). -/
def pyContains (s pat : String) : Bool :=
  occursIn pat.data s.data

/-- Python `s.lower()` (ASCII case folding, which suffices for this
program's single use: matching the literal "true"). -/
def pyLower (s : String) : String :=
  String.mk (s.data.map Char.toLower)

end PyStr

namespace ConfigService

/-- The mutable slice of `DebateConfig` that the configuration endpoints
touch.  Temperatures are modelled as exact rationals; the source stores
Python floats, and every literal involved (0.7, the 0.0/2.0 bounds) is a
short decimal. -/
structure DebateConfig where
  temperature : ℚ
  num_rounds : Int
deriving Repr, DecidableEq

/-- `DebateConfig()` field defaults: `temperature = 0.7`, `num_rounds = 3`. -/
def defaultConfig : DebateConfig :=
  { temperature := 7/10, num_rounds := 3 }

/-- Embeds `ConfigService.update_config`: writes `temperature` and
`num_rounds` when given (the `api_key` parameter is accepted but never
stored by the source, so it is omitted here). -/
def update_config (cfg : DebateConfig) (temperature : Option ℚ)
    (num_rounds : Option Int) : DebateConfig :=
  let cfg1 :=
    match temperature with
    | some t => { cfg with temperature := t }
    | none => cfg
  match num_rounds with
  | some n => { cfg1 with num_rounds := n }
  | none => cfg1

/-- Embeds `ConfigService.get_temperature`. -/
def get_temperature (cfg : DebateConfig) : ℚ :=
  cfg.temperature

end ConfigService

namespace AgentService

open PyJson

/-- A provider adapter as `DebateAgentService._create_llm` builds it: the
sampling temperature fixed at construction, plus an oracle giving the
provider's text reply (`response.content`) to the content of the single
`HumanMessage` each node sends.  Which provider class is chosen does not
change this interface. -/
structure Adapter where
  temperature : ℚ
  oracle : String → String

/-- One request issued to the model adapter: the temperature the adapter
carries and the message content sent to it. -/
structure AdapterRequest where
  temperature : ℚ
  content : String
deriving Repr, DecidableEq

/-- `adapter.invoke([HumanMessage(content=c)])`: the reply text together
with the request that went out. -/
def invoke (a : Adapter) (c : String) : String × AdapterRequest :=
  (a.oracle c, { temperature := a.temperature, content := c })

/-- One DuckDuckGo result dict with the fields `search_node` reads. -/
structure SearchResult where
  title : String
  href : String
  body : String

/-- The external search capability `ddgs.text(query, max_results=5)`, taking
the query value the node passes (a decoded JSON value, since
`state['search_query']` holds whatever the decision JSON contained) and
either returning the result list or raising, modelled as `Except` carrying
`str(e)`. -/
def SearchFn : Type :=
  Json → Except String (List SearchResult)

/-- The `GraphState` TypedDict of `agent_service.py`.  `should_search`,
`search_query` and `decision_reasoning` hold whatever values the decision
JSON produced, so they are modelled as decoded JSON values; the other
fields are the strings the nodes write. -/
structure GraphState where
  prompt : String
  should_search : Json
  search_results : String
  summary : String
  final_statement : String
  decision_reasoning : Json
  search_query : Json
  role : String

/-- The decision prompt of `decision_node` (an f-string over the state's
`prompt` and `role`; the doubled braces of the source render as literal
braces). -/
def decisionPrompt (prompt role : String) : String :=
  "Analyze the following prompt and determine if web search is needed to provide accurate, up-to-date information.\n\n    Prompt: " ++ prompt ++
  "\n\n    Consider:\n    - Does this require current events, news, or recent data?\n    - Would factual evidence from the web strengthen the response?\n    - Is this about rapidly changing topics (technology, politics, sports, etc.)?\n    - Does it ask for specific recent information?\n\n    You are arguing for the " ++ role ++
  " side. Does this side need specific evidence?\n\n    Respond with ONLY a JSON object in this format:\n    \x7b\n        \"should_search\": true/false,\n        \"search_query\": \"The specific query to search for (if needed, otherwise empty string)\",\n        \"reasoning\": \"Brief explanation of your decision\"\n    \x7d"

/-- The code-fence cleanup performed by `decision_node` before
`json.loads`: strip, drop a leading "```json" (7 chars) or "```" (3 chars),
drop a trailing "```", strip again. -/
def stripFences (raw : String) : String :=
  let content := PyStr.pyStrip raw
  let content :=
    if PyStr.pyStartsWith content "```json" then PyStr.pyDrop content 7 else content
  let content :=
    if PyStr.pyStartsWith content "```" then PyStr.pyDrop content 3 else content
  let content :=
    if PyStr.pyEndsWith content "```" then PyStr.pyDropRight content 3 else content
  PyStr.pyStrip content

/-- Embeds `decision_node`: ask the adapter for a routing decision, parse
the reply leniently (fence cleanup, then `json.loads`; any exception —
including a parse failure or the reply not being a dict, so that `.get`
raises — lands in the bare `except` fallback, which substring-matches
"true" and keeps the raw reply as the reasoning). -/
def decision_node (llm : Adapter) (state : GraphState) :
    GraphState × List AdapterRequest :=
  let decision_prompt := decisionPrompt state.prompt state.role
  let resp := invoke llm decision_prompt
  let content := stripFences resp.1
  let parsed : Option (List (String × Json)) :=
    match jsonLoads content with
    | some (Json.obj fields) => some fields
    | _ => none
  match parsed with
  | some fields =>
    ({ state with
        should_search := (objGet fields "should_search").getD (Json.bool false),
        search_query := (objGet fields "search_query").getD (Json.str ""),
        decision_reasoning :=
          (objGet fields "reasoning").getD (Json.str "No reasoning provided") },
     [resp.2])
  | none =>
    ({ state with
        should_search := Json.bool (PyStr.pyContains (PyStr.pyLower resp.1) "true"),
        search_query := Json.str "",
        decision_reasoning := Json.str resp.1 },
     [resp.2])

/-- Embeds `search_node`: search with `search_query` if truthy, else the
original prompt; format the top results, or `"No search results found."`;
on any exception substitute `f"Error during search: {str(e)}"` — the node
never aborts the workflow.  It issues no adapter request. -/
def search_node (searchFn : SearchFn) (state : GraphState) :
    GraphState × List AdapterRequest :=
  let query := state.search_query
  let query := if pyTruthy query then query else Json.str state.prompt
  let search_results :=
    match searchFn query with
    | Except.error e => "Error during search: " ++ e
    | Except.ok results =>
      if results.isEmpty then "No search results found."
      else
        String.intercalate "\n"
          (results.enum.map (fun p =>
            toString (p.1 + 1) ++ ". " ++ p.2.title ++
            "\n   URL: " ++ p.2.href ++
            "\n   Summary: " ++ p.2.body ++ "\n"))
  ({ state with search_results := search_results }, [])

/-- The summarize prompt of `summarize_node`. -/
def summarizePrompt (prompt role results : String) : String :=
  "Summarize the following search results in relation to this prompt:\n\n    Prompt: " ++ prompt ++
  "\n    Role: " ++ role ++
  "\n\n    Search Results:\n    " ++ results ++
  "\n\n    Provide a concise summary that:\n    1. Extracts key facts and evidence\n    2. Identifies main themes or findings\n    3. Notes any contradictions or varying perspectives\n    4. Highlights information that supports the " ++ role ++
  " position specifically\n\n    Keep the summary clear and factual."

/-- Embeds `summarize_node`. -/
def summarize_node (llm : Adapter) (state : GraphState) :
    GraphState × List AdapterRequest :=
  let resp := invoke llm (summarizePrompt state.prompt state.role state.search_results)
  ({ state with summary := resp.1 }, [resp.2])

/-- The generation prompt used when search evidence is available. -/
def generationPromptSearch (prompt role summary : String) : String :=
  "Based on the web search results and summary, generate a comprehensive statement addressing this prompt:\n\n    Prompt: " ++ prompt ++
  "\n    Role: " ++ role ++
  "\n\n    Summary of Evidence:\n    " ++ summary ++
  "\n\n    Generate a well-structured statement that:\n    1. Directly addresses the prompt\n    2. Incorporates key findings from the search\n    3. Provides specific examples and evidence\n    4. Is clear, accurate, and informative\n    5. Strongly supports the " ++ role ++
  " position\n    6. Cites general sources when appropriate (e.g., \"according to recent reports\")\n\n    Make the statement authoritative and well-supported."

/-- The generation prompt used when no search was performed. -/
def generationPromptNoSearch (prompt role : String) : String :=
  "Generate a comprehensive statement addressing this prompt:\n\n    Prompt: " ++ prompt ++
  "\n    Role: " ++ role ++
  "\n\n    Note: No web search was needed for this prompt. Generate a statement based on your knowledge that:\n    1. Directly addresses the prompt\n    2. Is clear and informative\n    3. Provides relevant context and explanation\n    4. Is well-structured\n    5. Persuasively argues for the " ++ role ++
  " position\n\n    Generate a thorough response."

/-- Embeds `generate_statement_node`: pick the longer evidence-citing
template when `state['should_search']` is truthy, the shorter one
otherwise, and take the adapter reply as the final statement. -/
def generate_statement_node (llm : Adapter) (state : GraphState) :
    GraphState × List AdapterRequest :=
  let generation_prompt :=
    if pyTruthy state.should_search then
      generationPromptSearch state.prompt state.role state.summary
    else
      generationPromptNoSearch state.prompt state.role
  let resp := invoke llm generation_prompt
  ({ state with final_statement := resp.1 }, [resp.2])

/-- Embeds `skip_search_node`: placeholder results/summary, no calls. -/
def skip_search_node (state : GraphState) : GraphState :=
  { state with
      search_results := "No search performed",
      summary := "No search was needed for this prompt" }

/-- Embeds `route_after_decision`: route on the Python truthiness of
`state['should_search']`. -/
def route_after_decision (state : GraphState) : String :=
  if pyTruthy state.should_search then "search" else "skip_search"

/-- Names of the graph nodes, for recording the path a run takes. -/
inductive Node where
  | decision
  | search
  | summarize
  | skip_search
  | generate
deriving Repr, DecidableEq

/-- Embeds the compiled graph of `create_workflow_graph`: entry point
`decision`; the conditional edge given by `route_after_decision`; the
linear edges `search → summarize → generate` and `skip_search → generate`;
finish after `generate`.  Besides the final state it returns the sequence
of nodes visited and the adapter requests issued. -/
def runGraph (llm : Adapter) (searchFn : SearchFn) (state0 : GraphState) :
    GraphState × List Node × List AdapterRequest :=
  let d := decision_node llm state0
  if route_after_decision d.1 = "search" then
    let se := search_node searchFn d.1
    let su := summarize_node llm se.1
    let ge := generate_statement_node llm su.1
    (ge.1, [.decision, .search, .summarize, .generate],
     d.2 ++ se.2 ++ su.2 ++ ge.2)
  else
    let sk := skip_search_node d.1
    let ge := generate_statement_node llm sk
    (ge.1, [.decision, .skip_search, .generate], d.2 ++ ge.2)

/-- The fields of `DebateAgentService` the workflow reads: the role, the
`temperature` attribute, and the adapter `self.llm` built once in
`__init__`. -/
structure Service where
  user_role : String
  temperature : ℚ
  llm : Adapter

/-- Embeds `DebateAgentService.__init__(user_role)` with the provider reply
behaviour abstracted as `oracle` (the concrete adapter is an HTTP client):
`self.temperature = 0.7` and `self.llm = self._create_llm(self.temperature)`,
so the adapter's temperature is fixed at 0.7 for the life of the service.
The constructor accepts no other parameter. -/
def mkService (user_role : String) (oracle : String → String) : Service :=
  { user_role := user_role, temperature := 7/10,
    llm := { temperature := 7/10, oracle := oracle } }

/-- The initial-state dict built inside `run_workflow`.  The source dict
omits the `search_query` key; a missing key read through `.get` is Python
`None`, modelled as JSON null (every run assigns it in `decision_node`
before any read). -/
def initialState (prompt role : String) : GraphState :=
  { prompt := prompt, role := role, should_search := Json.bool false,
    search_results := "", summary := "", final_statement := "",
    decision_reasoning := Json.str "", search_query := Json.null }

set_option linter.unusedVariables false in
/-- Embeds `run_workflow(prompt, system_message, temperature)`: store the
`temperature` argument on the service, build the initial state, run the
compiled graph and return `result['final_statement']` (together with the
updated service and the run's node path and adapter requests, which the
source exposes only through its side effects).  The `system_message`
parameter is bound but — as in the source — never read. -/
def run_workflow (svc : Service) (searchFn : SearchFn) (prompt : String)
    (system_message : Option String) (temperature : ℚ) :
    String × Service × List Node × List AdapterRequest :=
  let svc1 := { svc with temperature := temperature }
  let g := runGraph svc1.llm searchFn (initialState prompt svc1.user_role)
  (g.1.final_statement, svc1, g.2.1, g.2.2)

end AgentService

namespace Agents

/-- The Python exceptions the agent layer can surface to its callers. -/
inductive PyErr where
  | typeError (msg : String)
  | nameError (msg : String)
deriving Repr, DecidableEq

/-- A Python value inside the tuples the agent operations return. -/
inductive PyVal where
  | vstr (s : String)
  | vint (n : Int)
  | vnone
deriving Repr, DecidableEq

/-- The exception raised by every per-request construction
`DebateAgentService(user_role=…, provider_id=…, token_id=…)` (and the
`token_id=…`-only variant used by the rebuttal paths):
`DebateAgentService.__init__` accepts only `user_role`
(agent_service.py:106), so Python raises `TypeError` at the call, before
any model, search or database operation. -/
def serviceKwargsError : PyErr :=
  .typeError "DebateAgentService() got an unexpected keyword argument"

/-- Rendering of an exception inside an f-string (`f"... {e}"`). -/
def errText : PyErr → String
  | .typeError m => m
  | .nameError m => m

/-- Result of one agent operation: the returned Python tuple (or the
exception that escaped), paired with the number of model/search calls the
operation issued. -/
def OpResult : Type :=
  Except PyErr (List PyVal) × Nat

/-- Embeds `AffirmativeAgent.generate_affirmative_statement`
(affirmative_agent.py:111).  The empty-topic guard
(`if not topic or not topic.strip()`) returns the two-element warning
tuple.  Otherwise the first statement inside `try` — the
`DebateAgentService(user_role=…, provider_id=…, token_id=…)` construction —
raises `TypeError` (see `serviceKwargsError`) and the `except` clause
formats it into the error tuple; either way no model or search call is
issued. -/
def generate_affirmative_statement (topic aff_options : String)
    (affirmative_statements negative_statements : List String)
    (context : String) (provider_id : Option Int)
    (token_id : Option String) : OpResult :=
  if topic = "" ∨ PyStr.pyStrip topic = "" then
    (Except.ok [.vstr "", .vstr "Enter a topic first."], 0)
  else
    (Except.ok [.vstr "",
      .vstr ("Error generating affirmative statement: " ++ errText serviceKwargsError),
      .vnone], 0)

/-- Embeds `AffirmativeAgent.generate_rebuttal` (affirmative_agent.py:156).
The guard `if not all([topic.strip(), opponent_argument.strip()])` fires
when either strip is empty; otherwise the service construction raises as in
`serviceKwargsError` and the `except` clause returns the error tuple. -/
def affirmative_generate_rebuttal (topic opponent_argument team_position : String)
    (token_id : Option String) : OpResult :=
  if PyStr.pyStrip topic = "" ∨ PyStr.pyStrip opponent_argument = "" then
    (Except.ok [.vstr "", .vstr "Topic and opponent argument are required."], 0)
  else
    (Except.ok [.vstr "",
      .vstr ("Error generating rebuttal: " ++ errText serviceKwargsError),
      .vnone], 0)

/-- Embeds `AffirmativeAgent.generate_closing_argument`
(affirmative_agent.py:202), guard
`if not topic.strip() or not team_statements`. -/
def affirmative_generate_closing_argument (topic aff_options neg_options : String)
    (team_statements opponent_statements : List String)
    (provider_id : Option Int) (token_id : Option String) : OpResult :=
  if PyStr.pyStrip topic = "" ∨ team_statements = [] then
    (Except.ok [.vstr "", .vstr "Topic and team arguments are required."], 0)
  else
    (Except.ok [.vstr "",
      .vstr ("Error generating closing argument: " ++ errText serviceKwargsError),
      .vnone], 0)

/-- Embeds `AffirmativeAgent.generate_topics_from_input`
(affirmative_agent.py:59): the guard returns the three-string warning
tuple; otherwise the failed service construction's `TypeError` is re-raised
by the `except e: raise e` clause. -/
def affirmative_generate_topics_from_input (topic : String)
    (provider_id : Option Int) (token_id : Option String) : OpResult :=
  if topic = "" ∨ PyStr.pyStrip topic = "" then
    (Except.ok [.vstr "", .vstr "", .vstr "Enter a topic first."], 0)
  else
    (Except.error serviceKwargsError, 0)

/-- Embeds `NegativeAgent.generate_negative_statement`
(negative_agent.py:97); same shape as the affirmative statement
operation. -/
def generate_negative_statement (topic neg_options : String)
    (affirmative_statements negative_statements : List String)
    (context : String) (provider_id : Option Int)
    (token_id : Option String) : OpResult :=
  if topic = "" ∨ PyStr.pyStrip topic = "" then
    (Except.ok [.vstr "", .vstr "Enter a topic first."], 0)
  else
    (Except.ok [.vstr "",
      .vstr ("Error generating negative statement: " ++ errText serviceKwargsError),
      .vnone], 0)

/-- Embeds `NegativeAgent.generate_rebuttal` (negative_agent.py:140). -/
def negative_generate_rebuttal (topic opponent_argument team_position : String)
    (token_id : Option String) : OpResult :=
  if PyStr.pyStrip topic = "" ∨ PyStr.pyStrip opponent_argument = "" then
    (Except.ok [.vstr "", .vstr "Topic and opponent argument are required."], 0)
  else
    (Except.ok [.vstr "",
      .vstr ("Error generating rebuttal: " ++ errText serviceKwargsError),
      .vnone], 0)

/-- Embeds `NegativeAgent.generate_closing_argument`
(negative_agent.py:186). -/
def negative_generate_closing_argument (topic aff_options neg_options : String)
    (team_statements opponent_statements : List String)
    (provider_id : Option Int) (token_id : Option String) : OpResult :=
  if PyStr.pyStrip topic = "" ∨ team_statements = [] then
    (Except.ok [.vstr "", .vstr "Topic and team arguments are required."], 0)
  else
    (Except.ok [.vstr "",
      .vstr ("Error generating closing argument: " ++ errText serviceKwargsError),
      .vnone], 0)

/-- Embeds `NegativeAgent.generate_topics_from_input`
(negative_agent.py:64). -/
def negative_generate_topics_from_input (topic : String)
    (provider_id : Option Int) (token_id : Option String) : OpResult :=
  if topic = "" ∨ PyStr.pyStrip topic = "" then
    (Except.ok [.vstr "", .vstr "", .vstr "Enter a topic first."], 0)
  else
    (Except.error serviceKwargsError, 0)

/-- Embeds `RefereeAgent.judge_debate` (referee_agent.py:68).  The method
performs no topic validation at all: it reads the temperature, formats the
judge prompt, and then the per-request
`DebateAgentService(user_role=…, provider_id=…, token_id=…)` construction
raises `TypeError` (see `serviceKwargsError`).  The `except` handler then
evaluates `json.dumps(error_response)`, but `referee_agent.py` never
imports `json`, so a `NameError` escapes to the caller.  No model or search
call is issued on any input. -/
def judge_debate (topic aff_options neg_options : String)
    (affirmative_statements negative_statements : List String)
    (aff_final neg_final : String) (provider_id : Option Int)
    (token_id : Option String) : OpResult :=
  (Except.error (.nameError "name json is not defined"), 0)

end Agents

namespace DebateApi

open DatabaseService ConfigService

/-- Python truthiness of an optional string (`if not token:`): `None` and
the empty string are falsy. -/
def optStrFalsy : Option String → Bool
  | none => true
  | some s => s == ""

/-- Outcome of an endpoint or helper: `Except.error (code, detail)` models
`raise HTTPException(status_code=code, detail=detail)`. -/
def HttpResult (α : Type) : Type :=
  Except (Nat × String) α

/-- The header-fallback step of `debate_api.validate_access_token`: when the
body token is falsy and an `Authorization` header is present (and truthy),
take the header value, stripping a `Bearer ` prefix. -/
def resolveToken (token authorization : Option String) : Option String :=
  if optStrFalsy token ∧ ¬ optStrFalsy authorization then
    match authorization with
    | some a =>
      some (if PyStr.pyStartsWith a "Bearer " then PyStr.pyStrip (PyStr.pyDrop a 7)
            else PyStr.pyStrip a)
    | none => token
  else token

/-- Embeds `debate_api.validate_access_token` (debate_api.py:156): resolve
the token (body value or `Authorization` header), reject a missing token
with HTTP 401, then gate on `DatabaseService.validate_token` — an
existence-only query that applies no expiry or `STATUS` filtering — and
reject with HTTP 401 when no record exists. -/
def validate_access_token (token authorization : Option String)
    (st : TokenStore) : HttpResult String :=
  let tok := resolveToken token authorization
  if optStrFalsy tok then Except.error (401, "Access token is required")
  else if ¬ validate_token st then
    Except.error (401, "Invalid or expired access token")
  else Except.ok (tok.getD "")

/-- Reading of an optional-int tuple slot at the REST layer. -/
def pyOptInt : Agents.PyVal → Option Int
  | .vint n => some n
  | _ => none

/-- Embeds the `POST /api/affirmative/statement` handler
(debate_api.py:263): the token gate runs first and short-circuits with its
HTTP error; only when it passes is the agent invoked, whose three-element
tuple is unpacked into the response (a tuple of any other arity would raise
`ValueError` inside the endpoint's `try`, surfacing as HTTP 500).  Returns
the HTTP outcome, the token store after the call, and the number of
model/search calls issued. -/
def api_affirmative_statement (topic aff_options : String)
    (affirmative_statements negative_statements : List String)
    (context : String) (provider_id : Option Int)
    (token authorization : Option String) (st : TokenStore) :
    HttpResult (String × String × Option Int) × TokenStore × Nat :=
  match validate_access_token token authorization st with
  | Except.error e => (Except.error e, st, 0)
  | Except.ok tok =>
    match Agents.generate_affirmative_statement topic aff_options
        affirmative_statements negative_statements context provider_id
        (some tok) with
    | (Except.error e, calls) =>
      (Except.error (500,
        "Failed to generate affirmative statement: " ++ Agents.errText e),
       st, calls)
    | (Except.ok vals, calls) =>
      match vals with
      | [Agents.PyVal.vstr statement, Agents.PyVal.vstr status, rc] =>
        (Except.ok (statement, status, pyOptInt rc), st, calls)
      | _ =>
        (Except.error (500,
          "Failed to generate affirmative statement: ValueError"), st, calls)

/-- Embeds the `GET /api/config/temperature` handler: reads
`ConfigService.get_temperature` (the stored value is never `None`, the
dataclass default being 0.7). -/
def api_get_temperature (cfg : DebateConfig) : HttpResult ℚ :=
  Except.ok (ConfigService.get_temperature cfg)

/-- Embeds the `POST /api/config/temperature` handler (debate_api.py:489):
a value outside [0.0, 2.0] is rejected with HTTP 400.  For an in-range
value the handler calls `config_service.set_temperature(temperature)` —
but `ConfigService` defines no method of that name (its writer is
`update_config`), so Python raises `AttributeError`, which the generic
`except` clause converts to HTTP 500; the configuration is returned
unchanged either way. -/
def api_set_temperature (cfg : DebateConfig) (temperature : ℚ) :
    HttpResult String × DebateConfig :=
  if ¬ (0 ≤ temperature ∧ temperature ≤ 2) then
    (Except.error (400, "Temperature must be between 0.0 and 2.0"), cfg)
  else
    (Except.error (500,
      "Failed to set temperature: ConfigService object has no attribute set_temperature"),
     cfg)

end DebateApi

namespace DatabaseService

/-- Facts recoverable from a successful `get_token_data`: the returned item
is the head of the token's query result, it is not expired, and its status
is `AVAILABLE`. -/
lemma get_some_facts (now : Int) (st : TokenStore) (td : TokenItem)
    (h : (get_token_data now st).1 = some td) :
    (queryItems st).head? = some td ∧ ttlExpired td.ttl now = false ∧
      td.status = Status.AVAILABLE := by
  unfold get_token_data at h
  rcases hq : queryItems st with _ | ⟨item, rest⟩
  · rw [hq] at h
    simp at h
  · rw [hq] at h
    by_cases hexp : ttlExpired item.ttl now = true
    · simp [hexp] at h
    · by_cases hstat : item.status = Status.USED
      · simp [hexp, hstat] at h
      · simp [hexp, hstat] at h
        subst h
        refine ⟨by simp [hq], by simpa using hexp, ?_⟩
        cases hs : item.status
        · rfl
        · exact absurd hs hstat

end DatabaseService

namespace DatabaseService

/-- One decrement on a store holding a single live `AVAILABLE` item with a
positive count `n`: it reports `n - 1` and either keeps the item available
with the decremented count, or (when the count reaches 0) moves it to the
`USED` key. -/
lemma dec_on_avail (now : Int) (ttl : Option Int) (pid em : String)
    (ca : Int) (hT : ttlExpired ttl now = false) (n : Int) (hn : 0 < n) :
    decrement_request_count now
        { avail := some ⟨Status.AVAILABLE, some n, ttl, pid, em, ca⟩, used := none } =
      (some (n - 1),
        if n - 1 ≤ 0 then
          { avail := none, used := some ⟨Status.USED, some (n - 1), ttl, pid, em, ca⟩ }
        else
          { avail := some ⟨Status.AVAILABLE, some (n - 1), ttl, pid, em, ca⟩, used := none }) := by
  have hn' : ¬ n ≤ 0 := by omega
  by_cases hend : n - 1 ≤ 0 <;>
    simp [decrement_request_count, get_token_data, queryItems, hT, hn',
      mark_token_as_used, create_token, put_item, delete_item, hend]

/-- Iterating the decrement `k + 1` times is one decrement after `k`
iterations. -/
lemma decIter_succ (now : Int) (k : Nat) (st : TokenStore) :
    decIter now (k + 1) st =
      (decrement_request_count now (decIter now k st)).2 := by
  induction k generalizing st with
  | zero => rfl
  | succ k ih =>
    show decIter now (k + 1) ((decrement_request_count now st).2) = _
    rw [ih ((decrement_request_count now st).2)]
    rfl

/-- Closed form of `k ≤ N` iterated decrements on a freshly issued live
token with quota `N`: the single stored item keeps status `AVAILABLE` and
count `N - k` while `k < N` (or `N = 0`), and sits under the `USED` key
with count `0` once `k = N > 0`. -/
lemma decIter_closed (now : Int) (ttl : Option Int) (pid em : String)
    (ca : Int) (hT : ttlExpired ttl now = false) (N k : Nat) (hk : k ≤ N) :
    decIter now k (singleTokenStore (N : Int) ttl pid em ca) =
      if k = N ∧ 0 < N then
        { avail := none,
          used := some ⟨Status.USED, some 0, ttl, pid, em, ca⟩ }
      else
        { avail := some ⟨Status.AVAILABLE, some ((N : Int) - k), ttl, pid, em, ca⟩,
          used := none } := by
  induction k with
  | zero =>
    have h0 : ¬ ((0 : Nat) = N ∧ 0 < N) := by omega
    simp [decIter, singleTokenStore, h0]
  | succ k ih =>
    have hkN : k < N := by omega
    have hk' : k ≤ N := by omega
    have hne : ¬ (k = N ∧ 0 < N) := by omega
    rw [decIter_succ, ih hk', if_neg hne,
      dec_on_avail now ttl pid em ca hT ((N : Int) - k) (by omega)]
    by_cases hend : k + 1 = N
    · have h1 : (N : Int) - k - 1 ≤ 0 := by omega
      have h2 : (N : Int) - k - 1 = 0 := by omega
      have h3 : (k + 1 = N ∧ 0 < N) := by omega
      simp [h1, h2, h3]
    · have h1 : ¬ ((N : Int) - k - 1 ≤ 0) := by omega
      have h3 : ¬ (k + 1 = N ∧ 0 < N) := by omega
      have h4 : (N : Int) - k - 1 = (N : Int) - (k + 1) := by omega
      simp [h1, h3, h4]
      omega

end DatabaseService

open DatabaseService in
/-- C4: `get_token_data` returns the stored record iff it exists, its ttl is
not in the past, and its status is not USED; in every other case it reports
absent, and it performs no write — in particular an expired record still
physically exists in storage afterwards. -/
theorem C4_get_token_data_spec (now : Int) (st : TokenStore) :
    (∀ it : TokenItem,
      (get_token_data now st).1 = some it ↔
        ((queryItems st).head? = some it ∧ ttlExpired it.ttl now = false ∧
          it.status ≠ Status.USED))
    ∧ (get_token_data now st).2 = st := by
  constructor
  · intro it
    constructor
    · intro h
      have hf := get_some_facts now st it h
      exact ⟨hf.1, hf.2.1, by simp [hf.2.2]⟩
    · rintro ⟨hhead, hexp, hstat⟩
      rcases hq : queryItems st with _ | ⟨item, rest⟩
      · rw [hq] at hhead
        simp at hhead
      · rw [hq] at hhead
        simp at hhead
        subst hhead
        simp [get_token_data, hq, hexp, hstat]
  · unfold get_token_data
    split
    · rfl
    · split_ifs <;> rfl

open DatabaseService in
/-- C2: case analysis of a single `decrement_request_count` call: an absent
(or expired/used, hence absent-reported) record yields `None` and leaves the
store untouched; a live record with `request_count <= 0` is forced to USED
and `0` is reported; a live record with a positive count is written back
decremented, the status flipping to USED exactly when the new count reaches
0, and the new count is reported. -/
theorem C2_decrement_case_analysis (now : Int) (st : TokenStore) :
    ((get_token_data now st).1 = none →
        decrement_request_count now st = (none, st))
    ∧ (∀ td : TokenItem, (get_token_data now st).1 = some td →
        td.requestCount.getD 0 ≤ 0 →
          (decrement_request_count now st).1 = some 0 ∧
          storedStatus (decrement_request_count now st).2 = some Status.USED)
    ∧ (∀ td : TokenItem, (get_token_data now st).1 = some td →
        0 < td.requestCount.getD 0 →
          (decrement_request_count now st).1
              = some (td.requestCount.getD 0 - 1) ∧
          storedCount (decrement_request_count now st).2
              = some (td.requestCount.getD 0 - 1) ∧
          (storedStatus (decrement_request_count now st).2 = some Status.USED
            ↔ td.requestCount.getD 0 - 1 ≤ 0)) := by
  refine ⟨?_, ?_, ?_⟩
  · intro h
    simp [decrement_request_count, h]
  · intro td h hc
    obtain ⟨hhead, hexp, hstat⟩ := get_some_facts now st td h
    constructor
    · simp [decrement_request_count, h, hc]
    · simp [decrement_request_count, h, hc, mark_token_as_used, hstat,
        delete_item, create_token, put_item, storedStatus, queryItems]
  · intro td h hc
    obtain ⟨hhead, hexp, hstat⟩ := get_some_facts now st td h
    have hc' : ¬ (td.requestCount.getD 0 ≤ 0) := by omega
    by_cases hflip : td.requestCount.getD 0 - 1 ≤ 0
    · simp [decrement_request_count, h, hc', hflip, hstat, delete_item,
        create_token, put_item, storedCount, storedStatus, queryItems]
    · simp [decrement_request_count, h, hc', hflip, hstat, delete_item,
        create_token, put_item, storedCount, storedStatus, queryItems]

open DatabaseService in
/-- Witness for C2: on a fresh live token with quota 2 at time 0, one
decrement reports 1, stores 1, and does not mark the token USED. -/
theorem C2_witness :
    (get_token_data 0 (singleTokenStore 2 (some 100) "p" "e" 0)).1
        = some ⟨Status.AVAILABLE, some 2, some 100, "p", "e", 0⟩
    ∧ 0 < ((⟨Status.AVAILABLE, some 2, some 100, "p", "e", 0⟩ :
          TokenItem).requestCount.getD 0)
    ∧ ((decrement_request_count 0 (singleTokenStore 2 (some 100) "p" "e" 0)).1
        = some ((⟨Status.AVAILABLE, some 2, some 100, "p", "e", 0⟩ :
            TokenItem).requestCount.getD 0 - 1)
      ∧ storedCount (decrement_request_count 0
            (singleTokenStore 2 (some 100) "p" "e" 0)).2
        = some ((⟨Status.AVAILABLE, some 2, some 100, "p", "e", 0⟩ :
            TokenItem).requestCount.getD 0 - 1)
      ∧ (storedStatus (decrement_request_count 0
            (singleTokenStore 2 (some 100) "p" "e" 0)).2 = some Status.USED
          ↔ (⟨Status.AVAILABLE, some 2, some 100, "p", "e", 0⟩ :
              TokenItem).requestCount.getD 0 - 1 ≤ 0)) :=
  ⟨by decide, by decide,
    (C2_decrement_case_analysis 0 (singleTokenStore 2 (some 100) "p" "e" 0)).2.2
      ⟨Status.AVAILABLE, some 2, some 100, "p", "e", 0⟩ (by decide) (by decide)⟩

open DatabaseService in
/-- C1: starting from a live token record with `request_count = N`, each of
the first `k ≤ N` decrements succeeds and reports the next smaller count;
after `j ≤ k` decrements the stored count is exactly `N - j` (so the stored
count is monotonically non-increasing and never negative), and the stored
status has become USED exactly when the count has been driven to 0 by a
decrement. -/
theorem C1_token_decrement_invariant (now : Int) (ttl : Option Int)
    (pid em : String) (ca : Int) (N k : Nat)
    (hT : ttlExpired ttl now = false) (hk : k ≤ N) :
    (∀ j : Nat, j < k →
      (decrement_request_count now
        (decIter now j (singleTokenStore (N : Int) ttl pid em ca))).1
        = some ((N : Int) - (j + 1)))
    ∧ (∀ j : Nat, j ≤ k →
        storedCount (decIter now j (singleTokenStore (N : Int) ttl pid em ca))
          = some ((N : Int) - j))
    ∧ (storedStatus (decIter now k (singleTokenStore (N : Int) ttl pid em ca))
        = some Status.USED ↔ (k = N ∧ 0 < N)) := by
  refine ⟨?_, ?_, ?_⟩
  · intro j hj
    rw [decIter_closed now ttl pid em ca hT N j (by omega),
      if_neg (by omega),
      dec_on_avail now ttl pid em ca hT ((N : Int) - j) (by omega)]
    simp
    omega
  · intro j hj
    rw [decIter_closed now ttl pid em ca hT N j (by omega)]
    by_cases hend : j = N ∧ 0 < N
    · rw [if_pos hend]
      simp [storedCount, queryItems]
      omega
    · rw [if_neg hend]
      simp [storedCount, queryItems]
  · rw [decIter_closed now ttl pid em ca hT N k hk]
    by_cases hend : k = N ∧ 0 < N
    · rw [if_pos hend]
      simp [storedStatus, queryItems, hend]
    · rw [if_neg hend]
      simp [storedStatus, queryItems, hend]

open DatabaseService in
/-- Witness for C1: a token with quota 2 at time 0, fully drained by 2
decrements: the stored count is 0 and the status has become USED. -/
theorem C1_witness :
    ttlExpired (some 100) 0 = false ∧ (2 : Nat) ≤ 2 ∧
    storedCount (decIter 0 2 (singleTokenStore ((2 : Nat) : Int) (some 100) "p" "e" 0))
      = some (((2 : Nat) : Int) - (2 : Nat)) ∧
    (storedStatus (decIter 0 2 (singleTokenStore ((2 : Nat) : Int) (some 100) "p" "e" 0))
      = some Status.USED ↔ ((2 : Nat) = 2 ∧ 0 < 2)) :=
  ⟨by decide, by decide,
    (C1_token_decrement_invariant 0 (some 100) "p" "e" 0 2 2 (by decide) (by decide)).2.1
      2 (by decide),
    (C1_token_decrement_invariant 0 (some 100) "p" "e" 0 2 2 (by decide) (by decide)).2.2⟩

open DebateApi DatabaseService in
/-- C3 (amended): the REST token gate rejects with HTTP 401 exactly when the
request carries no token (body or header) or when no record with that token
id exists in storage at all; the rejection short-circuits the endpoint
before any agent work and leaves the token store untouched.  Expiry and
USED status are not checked at this boundary (see the counterexample). -/
theorem C3_amended_gate_existence_only (token authorization : Option String)
    (st : TokenStore) :
    ((∃ d, validate_access_token token authorization st
        = Except.error (401, d))
      ↔ (optStrFalsy (resolveToken token authorization) = true
          ∨ validate_token st = false))
    ∧ (∀ (topic aff_options context : String) (sa sn : List String)
        (provider_id : Option Int) (e : Nat × String),
        validate_access_token token authorization st = Except.error e →
          e.1 = 401 ∧
          api_affirmative_statement topic aff_options sa sn context
            provider_id token authorization st = (Except.error e, st, 0)) := by
  have hcases : validate_access_token token authorization st =
      (if optStrFalsy (resolveToken token authorization) = true then
        Except.error (401, "Access token is required")
      else if validate_token st = false then
        Except.error (401, "Invalid or expired access token")
      else Except.ok ((resolveToken token authorization).getD "")) := by
    unfold validate_access_token
    by_cases h1 : optStrFalsy (resolveToken token authorization) = true
    · simp [h1]
    · by_cases h2 : validate_token st <;> simp [h1, h2]
  constructor
  · rw [hcases]
    by_cases h1 : optStrFalsy (resolveToken token authorization) = true
    · simp [h1]
      exact ⟨_, rfl⟩
    · by_cases h2 : validate_token st = false
      · simp [h1, h2]
        exact ⟨_, rfl⟩
      · simp [h1, h2]
  · intro topic aff_options context sa sn provider_id e he
    refine ⟨?_, by simp [api_affirmative_statement, he]⟩
    rw [hcases] at he
    split_ifs at he
    · injection he with h
      rw [← h]
    · injection he with h
      rw [← h]

open DebateApi DatabaseService in
/-- Counterexample for C3: a token whose record is expired (ttl 10, now 100)
— which `get_token_data` treats as absent — still passes the REST token
gate, as does a token whose only record has STATUS = USED: the gate only
checks record existence, so no 401 is raised for expired or used tokens. -/
theorem C3_counterexample_expired_and_used_pass_gate :
    validate_access_token (some "tok") none
        (singleTokenStore 5 (some 10) "p" "e" 0) = Except.ok "tok"
    ∧ (get_token_data 100 (singleTokenStore 5 (some 10) "p" "e" 0)).1 = none
    ∧ ttlExpired (some 10) 100 = true
    ∧ validate_access_token (some "tok") none
        ({ avail := none,
           used := some ⟨Status.USED, some 3, none, "p", "e", 0⟩ } : TokenStore)
        = Except.ok "tok"
    ∧ (get_token_data 100
        ({ avail := none,
           used := some ⟨Status.USED, some 3, none, "p", "e", 0⟩ } : TokenStore)).1
        = none :=
  ⟨rfl, rfl, rfl, rfl, rfl⟩

open DebateApi DatabaseService in
/-- Witness for C3 (amended): with an empty store, a supplied token finds no
record, the gate returns 401, and the endpoint short-circuits with the same
error, zero model/search calls and an unchanged store. -/
theorem C3_witness :
    validate_access_token (some "tok") none
        ({ avail := none, used := none } : TokenStore)
      = Except.error (401, "Invalid or expired access token")
    ∧ ((401 : Nat), "Invalid or expired access token").1 = 401
    ∧ api_affirmative_statement "Should homework be banned?" "" [] [] "" none
        (some "tok") none ({ avail := none, used := none } : TokenStore)
      = (Except.error (401, "Invalid or expired access token"),
         ({ avail := none, used := none } : TokenStore), 0) :=
  ⟨rfl,
   ((C3_amended_gate_existence_only (some "tok") none
      { avail := none, used := none }).2 "Should homework be banned?" "" "" []
      [] none (401, "Invalid or expired access token") rfl).1,
   ((C3_amended_gate_existence_only (some "tok") none
      { avail := none, used := none }).2 "Should homework be banned?" "" "" []
      [] none (401, "Invalid or expired access token") rfl).2⟩

open DebateApi DatabaseService in
/-- C5: evaluation of the statement-generation endpoint at the end-to-end
scenario input (live token, `request_count = 1`, topic "Should homework be
banned?").  The call does NOT return a generated statement and does NOT
decrement the stored quota: the per-request `DebateAgentService` construction
rejects the `provider_id`/`token_id` keywords, the agent catches the
`TypeError` into an error-status tuple with no remaining count, and the
token store comes back unchanged with zero model/search calls. -/
theorem C5_quota_not_decremented :
    api_affirmative_statement "Should homework be banned?" "" [] [] "" none
        (some "tok-1") none (singleTokenStore 1 (some 2000000000) "p" "e" 0)
      = (Except.ok ("",
          "Error generating affirmative statement: "
            ++ Agents.errText Agents.serviceKwargsError, none),
         singleTokenStore 1 (some 2000000000) "p" "e" 0, 0) :=
  rfl

/-- Counterexample for C8: the referee's judge operation performs no topic
validation — on an empty topic it does not return the topic warning; it
proceeds to the generation attempt, whose `TypeError` is then masked by a
`NameError` (`json` is not imported in `referee_agent.py`). -/
theorem C8_counterexample_judge_skips_validation :
    Agents.judge_debate "" "" "" [] [] "" "" none none
      = (Except.error (Agents.PyErr.nameError "name json is not defined"), 0) :=
  rfl

open Agents in
/-- C8 (amended): for an empty or whitespace-only topic, the eight
affirmative/negative agent operations (statement, rebuttal, closing, topic
options for each side) return their user-facing warning tuples with zero
model or search calls; the referee's judge operation is the exception (see
the counterexample). -/
theorem C8_amended_topic_validation (topic : String)
    (h : PyStr.pyStrip topic = "")
    (aff_options neg_options context team_position opponent_argument : String)
    (l1 l2 : List String) (provider_id : Option Int)
    (token_id : Option String) :
    generate_affirmative_statement topic aff_options l1 l2 context provider_id
        token_id = (Except.ok [.vstr "", .vstr "Enter a topic first."], 0)
    ∧ affirmative_generate_rebuttal topic opponent_argument team_position
        token_id
      = (Except.ok [.vstr "", .vstr "Topic and opponent argument are required."], 0)
    ∧ affirmative_generate_closing_argument topic aff_options neg_options l1
        l2 provider_id token_id
      = (Except.ok [.vstr "", .vstr "Topic and team arguments are required."], 0)
    ∧ affirmative_generate_topics_from_input topic provider_id token_id
      = (Except.ok [.vstr "", .vstr "", .vstr "Enter a topic first."], 0)
    ∧ generate_negative_statement topic neg_options l1 l2 context provider_id
        token_id = (Except.ok [.vstr "", .vstr "Enter a topic first."], 0)
    ∧ negative_generate_rebuttal topic opponent_argument team_position
        token_id
      = (Except.ok [.vstr "", .vstr "Topic and opponent argument are required."], 0)
    ∧ negative_generate_closing_argument topic aff_options neg_options l1 l2
        provider_id token_id
      = (Except.ok [.vstr "", .vstr "Topic and team arguments are required."], 0)
    ∧ negative_generate_topics_from_input topic provider_id token_id
      = (Except.ok [.vstr "", .vstr "", .vstr "Enter a topic first."], 0) := by
  refine ⟨?_, ?_, ?_, ?_, ?_, ?_, ?_, ?_⟩ <;>
    simp [generate_affirmative_statement, affirmative_generate_rebuttal,
      affirmative_generate_closing_argument,
      affirmative_generate_topics_from_input, generate_negative_statement,
      negative_generate_rebuttal, negative_generate_closing_argument,
      negative_generate_topics_from_input, h]

open Agents in
/-- Witness for C8 (amended): the whitespace-only topic " " makes every
affirmative/negative operation return its warning with zero calls. -/
theorem C8_witness :
    PyStr.pyStrip " " = "" ∧
    (generate_affirmative_statement " " "" [] [] "" none none
        = (Except.ok [.vstr "", .vstr "Enter a topic first."], 0)
      ∧ affirmative_generate_rebuttal " " "" "" none
        = (Except.ok [.vstr "", .vstr "Topic and opponent argument are required."], 0)
      ∧ affirmative_generate_closing_argument " " "" "" [] [] none none
        = (Except.ok [.vstr "", .vstr "Topic and team arguments are required."], 0)
      ∧ affirmative_generate_topics_from_input " " none none
        = (Except.ok [.vstr "", .vstr "", .vstr "Enter a topic first."], 0)
      ∧ generate_negative_statement " " "" [] [] "" none none
        = (Except.ok [.vstr "", .vstr "Enter a topic first."], 0)
      ∧ negative_generate_rebuttal " " "" "" none
        = (Except.ok [.vstr "", .vstr "Topic and opponent argument are required."], 0)
      ∧ negative_generate_closing_argument " " "" "" [] [] none none
        = (Except.ok [.vstr "", .vstr "Topic and team arguments are required."], 0)
      ∧ negative_generate_topics_from_input " " none none
        = (Except.ok [.vstr "", .vstr "", .vstr "Enter a topic first."], 0)) :=
  ⟨by decide,
   C8_amended_topic_validation " " (by decide) "" "" "" "" "" [] [] none none⟩

open DebateApi ConfigService in
/-- C9: evaluation of the set-temperature endpoint.  Out-of-range values are
rejected with HTTP 400 (that part of the claim holds), but an in-range value
(1.0) does NOT update the configuration: the handler calls the nonexistent
`ConfigService.set_temperature`, the `AttributeError` surfaces as HTTP 500,
and a subsequent get still returns the default 0.7.  The cited writer
`update_config` would have performed the update. -/
theorem C9_set_temperature_code_bug :
    (api_set_temperature defaultConfig 1).1
      = Except.error (500,
          "Failed to set temperature: ConfigService object has no attribute set_temperature")
    ∧ (api_set_temperature defaultConfig 1).2 = defaultConfig
    ∧ api_get_temperature (api_set_temperature defaultConfig 1).2
      = Except.ok (7/10)
    ∧ (api_set_temperature defaultConfig (5/2)).1
      = Except.error (400, "Temperature must be between 0.0 and 2.0")
    ∧ (api_set_temperature defaultConfig (-1)).1
      = Except.error (400, "Temperature must be between 0.0 and 2.0")
    ∧ ConfigService.get_temperature
        (update_config defaultConfig (some 1) none) = 1 := by
  refine ⟨?_, ?_, ?_, ?_, ?_, ?_⟩ <;>
    norm_num [api_set_temperature, api_get_temperature, defaultConfig,
      update_config, ConfigService.get_temperature]

namespace AgentService

open PyJson

/-- When the decision reply parses (after fence cleanup) to a JSON object,
`decision_node` stores the object's routing fields (with the source's
defaults) and issues exactly one adapter request at the adapter's own
temperature. -/
lemma decision_node_parse_obj (llm : Adapter) (state : GraphState)
    (fields : List (String × Json))
    (h : jsonLoads (stripFences (llm.oracle (decisionPrompt state.prompt state.role)))
      = some (Json.obj fields)) :
    decision_node llm state =
      ({ state with
          should_search := (objGet fields "should_search").getD (Json.bool false),
          search_query := (objGet fields "search_query").getD (Json.str ""),
          decision_reasoning :=
            (objGet fields "reasoning").getD (Json.str "No reasoning provided") },
       [{ temperature := llm.temperature,
          content := decisionPrompt state.prompt state.role }]) := by
  simp only [decision_node, invoke]
  rw [h]

/-- The visited-node trace of a graph run is decided entirely by
`route_after_decision` on the decision node's output. -/
lemma runGraph_nodes (llm : Adapter) (searchFn : SearchFn) (st0 : GraphState) :
    (runGraph llm searchFn st0).2.1 =
      (if route_after_decision (decision_node llm st0).1 = "search" then
        [Node.decision, Node.search, Node.summarize, Node.generate]
      else [Node.decision, Node.skip_search, Node.generate]) := by
  unfold runGraph
  by_cases h : route_after_decision (decision_node llm st0).1 = "search" <;>
    simp [h]

/-- The generate node's final statement is an adapter reply. -/
lemma generate_statement_node_final (llm : Adapter) (st : GraphState) :
    (generate_statement_node llm st).1.final_statement
      = llm.oracle (if pyTruthy st.should_search = true then
          generationPromptSearch st.prompt st.role st.summary
        else generationPromptNoSearch st.prompt st.role) := by
  unfold generate_statement_node invoke
  by_cases h : pyTruthy st.should_search = true <;> simp [h]

/-- Whatever path a run takes, its final statement is an adapter reply: with
an adapter that never replies with the empty string, the run's
`final_statement` is non-empty. -/
lemma runGraph_final_ne (llm : Adapter) (searchFn : SearchFn)
    (st0 : GraphState) (hNE : ∀ s, llm.oracle s ≠ "") :
    (runGraph llm searchFn st0).1.final_statement ≠ "" := by
  unfold runGraph
  by_cases h : route_after_decision (decision_node llm st0).1 = "search" <;>
    simp only [h, if_pos, if_neg, if_true, if_false] <;>
    rw [generate_statement_node_final] <;>
    exact hNE _

/-- When the underlying search call raises, `search_node` substitutes the
explanatory error string and changes nothing else. -/
lemma search_node_error (searchFn : SearchFn) (st : GraphState) (e : String)
    (hS : ∀ q, searchFn q = Except.error e) :
    (search_node searchFn st).1
      = { st with search_results := "Error during search: " ++ e } := by
  simp only [search_node]
  rw [hS]

end AgentService

namespace AgentService

/-- Projections of `mkService`. -/
lemma mkService_llm (role : String) (oracle : String → String) :
    (mkService role oracle).llm = { temperature := 7/10, oracle := oracle } :=
  rfl

/-- The constructed service's role. -/
lemma mkService_user_role (role : String) (oracle : String → String) :
    (mkService role oracle).user_role = role :=
  rfl

/-- Updating the stored temperature does not touch the adapter field. -/
lemma service_update_llm (svc : Service) (t : ℚ) :
    ({ svc with temperature := t } : Service).llm = svc.llm :=
  rfl

/-- Updating the stored temperature does not touch the role field. -/
lemma service_update_user_role (svc : Service) (t : ℚ) :
    ({ svc with temperature := t } : Service).user_role = svc.user_role :=
  rfl

/-- The observable pieces `run_workflow` returns, in terms of the graph run
it performs: the returned string is the run's `final_statement`, and the
node/request traces are the run's. -/
lemma run_workflow_parts (svc : Service) (searchFn : SearchFn)
    (prompt : String) (sm : Option String) (t : ℚ) :
    (run_workflow svc searchFn prompt sm t).1
      = (runGraph svc.llm searchFn (initialState prompt svc.user_role)).1.final_statement
    ∧ (run_workflow svc searchFn prompt sm t).2.2.1
      = (runGraph svc.llm searchFn (initialState prompt svc.user_role)).2.1
    ∧ (run_workflow svc searchFn prompt sm t).2.2.2
      = (runGraph svc.llm searchFn (initialState prompt svc.user_role)).2.2 := by
  refine ⟨?_, ?_, ?_⟩ <;>
    simp only [run_workflow, service_update_llm, service_update_user_role]

end AgentService

open AgentService PyJson in
/-- C6: when the Decision node's model reply is valid JSON (optionally
fenced) whose `should_search` field is `true`, the workflow visits
Decision, Search, Summarize, Generate in order and — with an adapter that
returns non-empty text — produces a non-empty `final_statement`; when the
field is `false`, it visits Decision, SkipSearch, Generate. -/
theorem C6_decision_routing (oracle : String → String) (searchFn : SearchFn)
    (role prompt : String) (sm : Option String) (t : ℚ)
    (fields : List (String × Json))
    (hNE : ∀ s, oracle s ≠ "")
    (hParse : jsonLoads (stripFences (oracle (decisionPrompt prompt role)))
      = some (Json.obj fields)) :
    (objGet fields "should_search" = some (Json.bool true) →
      (run_workflow (mkService role oracle) searchFn prompt sm t).2.2.1
        = [Node.decision, Node.search, Node.summarize, Node.generate]
      ∧ (run_workflow (mkService role oracle) searchFn prompt sm t).1 ≠ "")
    ∧ (objGet fields "should_search" = some (Json.bool false) →
      (run_workflow (mkService role oracle) searchFn prompt sm t).2.2.1
        = [Node.decision, Node.skip_search, Node.generate]
      ∧ (run_workflow (mkService role oracle) searchFn prompt sm t).1 ≠ "") := by
  have hd := decision_node_parse_obj (mkService role oracle).llm
    (initialState prompt role) fields hParse
  have hparts := run_workflow_parts (mkService role oracle) searchFn prompt sm t
  rw [mkService_user_role] at hparts
  constructor
  · intro hT
    have hroute : route_after_decision
        (decision_node (mkService role oracle).llm (initialState prompt role)).1
        = "search" := by
      rw [hd]
      simp [route_after_decision, hT, pyTruthy]
    refine ⟨?_, ?_⟩
    · rw [hparts.2.1, runGraph_nodes, if_pos hroute]
    · rw [hparts.1]
      exact runGraph_final_ne _ _ _ hNE
  · intro hF
    have hroute' : ¬ (route_after_decision
        (decision_node (mkService role oracle).llm (initialState prompt role)).1
        = "search") := by
      rw [hd]
      simp [route_after_decision, hF, pyTruthy]
    refine ⟨?_, ?_⟩
    · rw [hparts.2.1, runGraph_nodes, if_neg hroute']
    · rw [hparts.1]
      exact runGraph_final_ne _ _ _ hNE

/-- Fenced-JSON decision reply used to exercise C6. -/
def c6Oracle : String → String := fun _ =>
  "```json\n\x7b\"should_search\": true, \"search_query\": \"q\", \"reasoning\": \"r\"\x7d\n```"

/-- Always-failing search capability for the C6 run (its result is not
consulted on the parse itself). -/
def c6Search : AgentService.SearchFn := fun _ => Except.error "down"

open AgentService PyJson in
/-- Witness for C6: a fenced JSON reply with `should_search: true` routes a
concrete run through Search, Summarize, Generate with a non-empty final
statement. -/
theorem C6_witness :
    jsonLoads (stripFences (c6Oracle
        (decisionPrompt "Should homework be banned in schools?" "affirmative team")))
      = some (Json.obj [("should_search", Json.bool true),
          ("search_query", Json.str "q"), ("reasoning", Json.str "r")])
    ∧ objGet [("should_search", Json.bool true), ("search_query", Json.str "q"),
        ("reasoning", Json.str "r")] "should_search" = some (Json.bool true)
    ∧ ((run_workflow (mkService "affirmative team" c6Oracle) c6Search
          "Should homework be banned in schools?" none (7/10)).2.2.1
        = [Node.decision, Node.search, Node.summarize, Node.generate]
      ∧ (run_workflow (mkService "affirmative team" c6Oracle) c6Search
          "Should homework be banned in schools?" none (7/10)).1 ≠ "") :=
  ⟨rfl, rfl,
   (C6_decision_routing c6Oracle c6Search "affirmative team"
      "Should homework be banned in schools?" none (7/10)
      [("should_search", Json.bool true), ("search_query", Json.str "q"),
        ("reasoning", Json.str "r")]
      (fun s => by simp [c6Oracle]) rfl).1 rfl⟩

namespace AgentService

/-- The state a search-path run ends in, spelled out node by node. -/
lemma runGraph_state_search (llm : Adapter) (searchFn : SearchFn)
    (st0 : GraphState)
    (h : route_after_decision (decision_node llm st0).1 = "search") :
    (runGraph llm searchFn st0).1 =
      (generate_statement_node llm
        (summarize_node llm
          (search_node searchFn (decision_node llm st0).1).1).1).1 := by
  simp only [runGraph]
  rw [if_pos h]

end AgentService

open AgentService in
/-- C7: in any run whose Decision routes to Search, if the underlying search
call raises, the workflow does not abort: the explanatory error string
becomes the search results, the run still traverses Search, Summarize,
Generate, and (with an adapter returning non-empty text) the final
statement returned by `run_workflow` is non-empty. -/
theorem C7_search_failure_degrades (oracle : String → String)
    (searchFn : SearchFn) (role prompt : String) (sm : Option String)
    (t : ℚ) (e : String)
    (hNE : ∀ s, oracle s ≠ "")
    (hS : ∀ q, searchFn q = Except.error e)
    (hroute : route_after_decision
        (decision_node (mkService role oracle).llm (initialState prompt role)).1
      = "search") :
    (runGraph (mkService role oracle).llm searchFn (initialState prompt role)).2.1
      = [Node.decision, Node.search, Node.summarize, Node.generate]
    ∧ (runGraph (mkService role oracle).llm searchFn
        (initialState prompt role)).1.search_results
      = "Error during search: " ++ e
    ∧ (runGraph (mkService role oracle).llm searchFn
        (initialState prompt role)).1.final_statement ≠ ""
    ∧ (run_workflow (mkService role oracle) searchFn prompt sm t).1
      = (runGraph (mkService role oracle).llm searchFn
          (initialState prompt role)).1.final_statement := by
  refine ⟨?_, ?_, ?_, ?_⟩
  · rw [runGraph_nodes, if_pos hroute]
  · rw [runGraph_state_search _ _ _ hroute,
      search_node_error searchFn _ e hS]
    rfl
  · exact runGraph_final_ne _ _ _ hNE
  · have h := (run_workflow_parts (mkService role oracle) searchFn prompt sm t).1
    rw [mkService_user_role] at h
    exact h

/-- Decision reply used to exercise C7: not valid JSON, so the fallback
matches the substring "true" and routes to search. -/
def c7Oracle : String → String := fun _ => "true"

/-- Search capability that always raises, for the C7 run. -/
def c7Search : AgentService.SearchFn := fun _ => Except.error "boom"

open AgentService in
/-- Witness for C7: a concrete run whose search always raises still visits
Search, Summarize, Generate, carries the explanatory error string as its
search results, and returns a non-empty final statement. -/
theorem C7_witness :
    route_after_decision
        (decision_node (mkService "affirmative team" c7Oracle).llm
          (initialState "Should homework be banned in schools?" "affirmative team")).1
      = "search"
    ∧ ((runGraph (mkService "affirmative team" c7Oracle).llm c7Search
          (initialState "Should homework be banned in schools?" "affirmative team")).2.1
        = [Node.decision, Node.search, Node.summarize, Node.generate]
      ∧ (runGraph (mkService "affirmative team" c7Oracle).llm c7Search
          (initialState "Should homework be banned in schools?" "affirmative team")).1.search_results
        = "Error during search: " ++ "boom"
      ∧ (runGraph (mkService "affirmative team" c7Oracle).llm c7Search
          (initialState "Should homework be banned in schools?" "affirmative team")).1.final_statement ≠ ""
      ∧ (run_workflow (mkService "affirmative team" c7Oracle) c7Search
          "Should homework be banned in schools?" none (7/10)).1
        = (runGraph (mkService "affirmative team" c7Oracle).llm c7Search
            (initialState "Should homework be banned in schools?" "affirmative team")).1.final_statement) :=
  ⟨rfl,
   C7_search_failure_degrades c7Oracle c7Search "affirmative team"
     "Should homework be banned in schools?" none (7/10) "boom"
     (fun s => by simp [c7Oracle]) (fun q => rfl) rfl⟩

namespace AgentService

open PyJson

/-- Every adapter request a graph run issues carries the temperature the
adapter was constructed with — the nodes all call `self.llm`. -/
lemma runGraph_reqs_all_temp (llm : Adapter) (searchFn : SearchFn)
    (st0 : GraphState) :
    ((runGraph llm searchFn st0).2.2).all
      (fun r => r.temperature == llm.temperature) = true := by
  have hd : (decision_node llm st0).2
      = [{ temperature := llm.temperature,
           content := decisionPrompt st0.prompt st0.role }] := by
    simp only [decision_node, invoke]
    split <;> rfl
  have hse : ∀ st, (search_node searchFn st).2 = ([] : List AdapterRequest) :=
    fun st => rfl
  have hsu : ∀ st, (summarize_node llm st).2
      = [{ temperature := llm.temperature,
           content := summarizePrompt st.prompt st.role st.search_results }] :=
    fun st => rfl
  have hg : ∀ st, (generate_statement_node llm st).2
      = [{ temperature := llm.temperature,
           content :=
             if pyTruthy st.should_search = true then
               generationPromptSearch st.prompt st.role st.summary
             else generationPromptNoSearch st.prompt st.role }] :=
    fun st => rfl
  simp only [runGraph]
  by_cases h : route_after_decision (decision_node llm st0).1 = "search"
  · rw [if_pos h]
    simp [hd, hse, hsu, hg]
  · rw [if_neg h]
    simp [hd, hg]

end AgentService

open AgentService in
/-- C10: two `run_workflow` calls that differ only in their
`system_message` argument, or only in their `temperature` argument, issue
identical model-adapter requests; and every request carries the temperature
fixed at service construction (0.7), not the `temperature` argument. -/
theorem C10_system_message_and_temperature_unused (oracle : String → String)
    (searchFn : SearchFn) (role prompt : String) (sm1 sm2 : Option String)
    (t1 t2 : ℚ) :
    (run_workflow (mkService role oracle) searchFn prompt sm1 t1).2.2.2
      = (run_workflow (mkService role oracle) searchFn prompt sm2 t2).2.2.2
    ∧ ((run_workflow (mkService role oracle) searchFn prompt sm1 t1).2.2.2).all
        (fun r => r.temperature == 7/10) = true := by
  have hparts1 := run_workflow_parts (mkService role oracle) searchFn prompt sm1 t1
  have hparts2 := run_workflow_parts (mkService role oracle) searchFn prompt sm2 t2
  constructor
  · exact hparts1.2.2.trans hparts2.2.2.symm
  · rw [hparts1.2.2]
    have h := runGraph_reqs_all_temp (mkService role oracle).llm searchFn
      (initialState prompt (mkService role oracle).user_role)
    have he : (mkService role oracle).llm.temperature = 7/10 := rfl
    rw [he] at h
    exact h
